import Mathlib

/-!
Verification of the SDVX Asphyxia → Kamaitachi score converter (`main.py`).

The program is a one-shot pipeline: load a newline-delimited JSON database,
keep records of the "music" collection, filter to one user's records, convert
each record through two fixed enumeration tables, apply a fail-preservation
policy, and serialize an aggregate JSON document.

We embed the relevant Python semantics shallowly:
  * JSON values are `JValue`; Python dicts produced by `json.loads` are
    association lists `Dict := List (String × JValue)` with distinct keys.
  * Fallible Python operations (`d[k]`, `int(x)`, `x > 0` on mixed types)
    return `Except Unit _` / `Option _`; `Except.error ()` models a raised
    exception.
  * JSON numbers in this database are integers, so numeric values are
    modelled as `Int` (the database stores scores, timestamps and enum codes
    as integers; no floats occur).
-/

set_option maxHeartbeats 1000000

/-- A JSON value, as produced by Python's `json.loads`. -/
inductive JValue where
  | null
  | bool (b : Bool)
  | num (n : Int)
  | str (s : String)
  | arr (xs : List JValue)
  | obj (fields : List (String × JValue))

/-- A Python dict with string keys, as produced by parsing a JSON object:
an association list with (by construction) distinct keys. -/
abbrev Dict := List (String × JValue)

/-- Key lookup in a dict: `d.get(k)` / the guarded part of `d[k]`. -/
def dictFind (d : Dict) (k : String) : Option JValue :=
  match d with
  | [] => none
  | (k', v) :: rest => if k' = k then some v else dictFind rest k

/-- Python `d[k]` on a dict: raises `KeyError` when the key is absent. -/
def getItemE (d : Dict) (k : String) : Except Unit JValue :=
  match dictFind d k with
  | some v => Except.ok v
  | none => Except.error ()

/-- Python `d.get(k, default)` on a dict: total. -/
def pyGetD (d : Dict) (k : String) (default : JValue) : JValue :=
  match dictFind d k with
  | some v => v
  | none => default

/-- Python `v[k]` where `v` is an arbitrary JSON value: works only when `v`
is a dict (raises `TypeError` otherwise, `KeyError` when the key is absent). -/
def pyIndexE (v : JValue) (k : String) : Except Unit JValue :=
  match v with
  | .obj fs => getItemE fs k
  | _ => Except.error ()

/-- Fold a digit list into a natural number. -/
def digitsToNat (cs : List Char) : Nat :=
  cs.foldl (fun acc c => acc * 10 + (c.toNat - 48)) 0

/-- Python `int(s)` on a string: surrounding whitespace, an optional sign,
then a nonempty digit run (`ValueError` otherwise). -/
def pyIntOfString (s : String) : Option Int :=
  match s.trim.toList with
  | [] => none
  | c :: rest =>
    if c = '-' then
      if rest ≠ [] ∧ rest.all Char.isDigit then some (-(digitsToNat rest : Int)) else none
    else if c = '+' then
      if rest ≠ [] ∧ rest.all Char.isDigit then some ((digitsToNat rest : Int)) else none
    else if (c :: rest).all Char.isDigit then some ((digitsToNat (c :: rest) : Int)) else none

/-- Python `int(x)`: identity on ints, `True ↦ 1` / `False ↦ 0` on bools,
string parsing on strings; raises (`TypeError`/`ValueError`) otherwise. -/
def pyIntCoerce (v : JValue) : Option Int :=
  match v with
  | .num n => some n
  | .bool b => some (if b then 1 else 0)
  | .str s => pyIntOfString s
  | _ => none

/-- Python `repr` of a JSON-derived value; containers render with Python
syntax. Only scalar cases are exercised by the program's data. -/
def pyRepr : JValue → String
  | .null => "None"
  | .bool true => "True"
  | .bool false => "False"
  | .num n => toString n
  | .str s => "'" ++ s ++ "'"
  | .arr xs => "[" ++ String.intercalate ", " (xs.attach.map fun x => pyRepr x.1) ++ "]"
  | .obj fs =>
      "\x7b" ++
        String.intercalate ", "
          (fs.attach.map fun p => "'" ++ p.1.1 ++ "': " ++ pyRepr p.1.2) ++
      "\x7d"
decreasing_by
  · have := List.sizeOf_lt_of_mem x.2
    simp only [JValue.arr.sizeOf_spec]
    omega
  · have h1 := List.sizeOf_lt_of_mem p.2
    have h2 : sizeOf p.1.2 < sizeOf p.1 := by
      rcases p with ⟨⟨k, v⟩, hp⟩
      simp only [Prod.mk.sizeOf_spec]
      omega
    simp only [JValue.obj.sizeOf_spec]
    omega

/-- Python `str(x)` on a JSON-derived value. -/
def pyStrCoerce (v : JValue) : String :=
  match v with
  | .str s => s
  | v => pyRepr v

/-- Python `x > 0` where `x` came out of a JSON document: defined for numbers
and bools (`True > 0` is true since `True == 1`); `TypeError` otherwise. -/
def pyGtZero (v : JValue) : Option Bool :=
  match v with
  | .num n => some (decide (0 < n))
  | .bool b => some b
  | _ => none

/-- Python `x == s` for a string literal `s`: true only when `x` is the equal
string (never raises; `None == s`, `5 == s` are `False`). -/
def pyEqStr (v : JValue) (s : String) : Bool :=
  match v with
  | .str s' => s' = s
  | _ => false

/-- Python `x == s` where `x : Option JValue` models `d.get(k)` (absent ↦
`None`). -/
def pyEqStrOpt (v : Option JValue) (s : String) : Bool :=
  match v with
  | some v' => pyEqStr v' s
  | none => false

/-- Python truthiness of a dict: an empty dict is falsy. -/
def pyTruthyDict (d : Dict) : Bool :=
  !d.isEmpty

/-! ## Static data of `main.py` -/

/-- Meta information for the final output (`META` in `main.py`). -/
def META : Dict :=
  [("game", .str "sdvx"), ("playtype", .str "Single"), ("service", .str "Asphyxia")]

/-- Mapping of plugin clear type to Kamaitachi clear type
(`CLEAR_TYPE_MAP` in `main.py`). -/
def CLEAR_TYPE_MAP : List (Int × String) :=
  [(1, "FAILED"), (2, "CLEAR"), (3, "EXCESSIVE CLEAR"),
   (4, "ULTIMATE CHAIN"), (5, "PERFECT ULTIMATE CHAIN"), (6, "MAXXIVE CLEAR")]

/-- Mapping of plugin difficulty to Kamaitachi difficulty
(`DIFFICULTY_MAP` in `main.py`). -/
def DIFFICULTY_MAP : List (Int × String) :=
  [(0, "NOV"), (1, "ADV"), (2, "EXH"), (3, "ANY_INF"), (4, "MXM")]

/-- A JSON value usable as a key of the int-keyed maps under Python `==` and
`hash` (Python bools compare equal to 0/1; strings never equal ints). -/
def pyIntKey (v : JValue) : Option Int :=
  match v with
  | .num n => some n
  | .bool b => some (if b then 1 else 0)
  | _ => none

/-- Python `v in m` for an int-keyed dict `m`. -/
def intMapMem (m : List (Int × String)) (v : JValue) : Bool :=
  match pyIntKey v with
  | some n => m.any (fun p => p.1 = n)
  | none => false

/-- Lookup by `Int` code in an int-keyed map. -/
def intMapFind (m : List (Int × String)) (n : Int) : Option String :=
  match m with
  | [] => none
  | (k, s) :: rest => if k = n then some s else intMapFind rest n

/-- Python `m[v]` for an int-keyed dict `m`: `KeyError` when absent. -/
def intMapGetE (m : List (Int × String)) (v : JValue) : Except Unit String :=
  match pyIntKey v with
  | some n =>
    match intMapFind m n with
    | some s => Except.ok s
    | none => Except.error ()
  | none => Except.error ()

/-- The dict literal `output = {...}` built at `main.py` lines 100–107. -/
def convertedBase (song_id : String) (score : Int) (lamp difficulty : String)
    (time_achieved : Int) : Dict :=
  [("matchType", .str "sdvxInGameID"),
   ("identifier", .str song_id),
   ("score", .num score),
   ("lamp", .str lamp),
   ("difficulty", .str difficulty),
   ("timeAchieved", .num time_achieved)]

/-! ## `convert_play` (`main.py` lines 77–117)

The `try` body is `convertPlayTry`; `Except.error ()` is a raised exception,
`Except.ok none` the explicit `return None` skips, `Except.ok (some r)` a
successful conversion. `convert_play` is the whole function including the
`except Exception` handler, which maps any raised exception to `None`. -/

/-- The body of `convert_play`'s `try` block, statement by statement. -/
def convertPlayTry (play : Dict) : Except Unit (Option Dict) :=
  -- score = int(play["score"])
  match getItemE play "score" with
  | .error _ => .error ()
  | .ok scoreV =>
  match pyIntCoerce scoreV with
  | none => .error ()
  | some score =>
  -- exscore = int(play["exscore"]) if play.get("exscore", 0) > 0 else None
  match pyGtZero (pyGetD play "exscore" (.num 0)) with
  | none => .error ()
  | some cond =>
  match (if cond then
            match getItemE play "exscore" with
            | .error _ => Except.error ()
            | .ok exV =>
              match pyIntCoerce exV with
              | none => Except.error ()
              | some e => Except.ok (some e)
          else Except.ok none : Except Unit (Option Int)) with
  | .error _ => .error ()
  | .ok exscore =>
  -- song_id = str(play["mid"])
  match getItemE play "mid" with
  | .error _ => .error ()
  | .ok midV =>
  let song_id := pyStrCoerce midV
  -- time_achieved = int(play["createdAt"]["$$date"])
  match getItemE play "createdAt" with
  | .error _ => .error ()
  | .ok createdV =>
  match pyIndexE createdV "$$date" with
  | .error _ => .error ()
  | .ok dateV =>
  match pyIntCoerce dateV with
  | none => .error ()
  | some time_achieved =>
  -- clear_type = play["clear"]
  match getItemE play "clear" with
  | .error _ => .error ()
  | .ok clear_type =>
  if ¬ intMapMem CLEAR_TYPE_MAP clear_type then
    -- the warning reads play['clear'] (present) and song_id, then return None
    .ok none
  else
  match intMapGetE CLEAR_TYPE_MAP clear_type with
  | .error _ => .error ()
  | .ok lamp =>
  -- difficulty_type = play["type"]
  match getItemE play "type" with
  | .error _ => .error ()
  | .ok difficulty_type =>
  if ¬ intMapMem DIFFICULTY_MAP difficulty_type then
    -- the warning's f-string reads play['difficulty'], a key the records do
    -- not carry: that read itself raises KeyError when absent, before the
    -- `return None` is reached
    match getItemE play "difficulty" with
    | .error _ => .error ()
    | .ok _ => .ok none
  else
  match intMapGetE DIFFICULTY_MAP difficulty_type with
  | .error _ => .error ()
  | .ok difficulty =>
  let base := convertedBase song_id score lamp difficulty time_achieved
  -- if exscore is not None and exscore > 0:
  --   output["optional"] = {}; output["optional"]["exScore"] = int(exscore)
  -- "optional" is a fresh key, so the two assignments append one entry
  match exscore with
  | some e =>
    if 0 < e then .ok (some (base ++ [("optional", .obj [("exScore", .num e)])]))
    else .ok (some base)
  | none => .ok (some base)

/-- `convert_play`: the `try` body with the `except Exception` handler, which
catches every raised exception and returns `None`. Total: no exception
reaches the caller. -/
def convert_play (play : Dict) : Option Dict :=
  match convertPlayTry play with
  | .error _ => none
  | .ok r => r

/-! ## State-threaded rendering of `convert_play`

Python dicts are mutable, so to express that `convert_play` leaves its
argument untouched we re-translate it with the record threaded explicitly
through every operation that receives the dict. Reads (`play[k]`,
`play.get(k, d)`) return the dict unchanged — that is their Python
semantics — and the source contains no statement assigning into `play`, so
no step updates the state. -/

/-- `d[k]` with the dict threaded: a read. -/
def getItemSt (d : Dict) (k : String) : Except Unit JValue × Dict :=
  (getItemE d k, d)

/-- `d.get(k, default)` with the dict threaded: a read. -/
def pyGetDSt (d : Dict) (k : String) (default : JValue) : JValue × Dict :=
  (pyGetD d k default, d)

/-- The `try` body of `convert_play`, with the `play` dict threaded through
every operation that touches it. -/
def convertPlayTrySt (play : Dict) : Except Unit (Option Dict) × Dict :=
  match getItemSt play "score" with
  | (.error _, play) => (.error (), play)
  | (.ok scoreV, play) =>
  match pyIntCoerce scoreV with
  | none => (.error (), play)
  | some score =>
  match pyGetDSt play "exscore" (.num 0) with
  | (exDefault, play) =>
  match pyGtZero exDefault with
  | none => (.error (), play)
  | some cond =>
  match (if cond then
            match getItemSt play "exscore" with
            | (.error _, play) => (Except.error (), play)
            | (.ok exV, play) =>
              match pyIntCoerce exV with
              | none => (Except.error (), play)
              | some e => (Except.ok (some e), play)
          else (Except.ok none, play) : Except Unit (Option Int) × Dict) with
  | (.error _, play) => (.error (), play)
  | (.ok exscore, play) =>
  match getItemSt play "mid" with
  | (.error _, play) => (.error (), play)
  | (.ok midV, play) =>
  let song_id := pyStrCoerce midV
  match getItemSt play "createdAt" with
  | (.error _, play) => (.error (), play)
  | (.ok createdV, play) =>
  match pyIndexE createdV "$$date" with
  | .error _ => (.error (), play)
  | .ok dateV =>
  match pyIntCoerce dateV with
  | none => (.error (), play)
  | some time_achieved =>
  match getItemSt play "clear" with
  | (.error _, play) => (.error (), play)
  | (.ok clear_type, play) =>
  if ¬ intMapMem CLEAR_TYPE_MAP clear_type then
    (.ok none, play)
  else
  match intMapGetE CLEAR_TYPE_MAP clear_type with
  | .error _ => (.error (), play)
  | .ok lamp =>
  match getItemSt play "type" with
  | (.error _, play) => (.error (), play)
  | (.ok difficulty_type, play) =>
  if ¬ intMapMem DIFFICULTY_MAP difficulty_type then
    match getItemSt play "difficulty" with
    | (.error _, play) => (.error (), play)
    | (.ok _, play) => (.ok none, play)
  else
  match intMapGetE DIFFICULTY_MAP difficulty_type with
  | .error _ => (.error (), play)
  | .ok difficulty =>
  let base := convertedBase song_id score lamp difficulty time_achieved
  match exscore with
  | some e =>
    if 0 < e then (.ok (some (base ++ [("optional", .obj [("exScore", .num e)])])), play)
    else (.ok (some base), play)
  | none => (.ok (some base), play)

/-- `convert_play` with the argument dict threaded through. -/
def convertPlaySt (play : Dict) : Option Dict × Dict :=
  match convertPlayTrySt play with
  | (.error _, play) => (none, play)
  | (.ok r, play) => (r, play)

/-! ## `filter_user_scores` (`main.py` lines 66–74) -/

/-- The filter's predicate:
`point.get("__refid") == profile_id and point.get("__s") == "plugins_profile"`. -/
def userScorePred (profile_id : String) (point : Dict) : Bool :=
  pyEqStrOpt (dictFind point "__refid") profile_id &&
  pyEqStrOpt (dictFind point "__s") "plugins_profile"

/-- `filter_user_scores`: keep the records of the given user coming from the
`plugins_profile` source. Total: `.get` and `==` never raise. -/
def filter_user_scores (scores : List Dict) (profile_id : String) : List Dict :=
  scores.filter (userScorePred profile_id)

/-! ## `load_plays_database` (`main.py` lines 50–63)

The file is modelled after `json.loads` per line: each line either parses to
a `JValue` or raises `JSONDecodeError`. The two `except` clauses both log and
re-raise, so they do not change the function's value semantics. -/

/-- One line of the database file, after `json.loads`. -/
inductive ParsedLine where
  | ok (v : JValue)
  | malformed

/-- The exceptions `load_plays_database` can propagate (besides I/O errors,
which live outside the value-level model). -/
inductive LoadError where
  | parseError
  | attrError
deriving DecidableEq

/-- `[json.loads(line) for line in db_file]`: parse every line left to right,
aborting with `JSONDecodeError` at the first malformed line. -/
def parseAllLines (lines : List ParsedLine) : Except LoadError (List JValue) :=
  match lines with
  | [] => .ok []
  | .malformed :: _ => .error .parseError
  | .ok v :: rest =>
    match parseAllLines rest with
    | .error e => .error e
    | .ok vs => .ok (v :: vs)

/-- `[play for play in data_points if play.get("collection", None) == "music"]`:
`.get` exists only on dicts, so a non-object value raises `AttributeError`. -/
def filterMusic (vs : List JValue) : Except LoadError (List JValue) :=
  match vs with
  | [] => .ok []
  | v :: rest =>
    match v with
    | .obj fs =>
      match filterMusic rest with
      | .error e => .error e
      | .ok kept =>
        .ok (if pyEqStrOpt (dictFind fs "collection") "music" then v :: kept else kept)
    | _ => .error .attrError

/-- `load_plays_database`: parse all lines, then keep the `"music"`
collection. Both comprehensions run inside a `try` whose handlers log and
re-raise, so every exception propagates. -/
def load_plays_database (lines : List ParsedLine) : Except LoadError (List JValue) :=
  match parseAllLines lines with
  | .error e => .error e
  | .ok data_points => filterMusic data_points

/-! ## `main`'s conversion loop (`main.py` lines 145–151) -/

/-- The per-play accumulation loop of `main`:
`if score_info:` is Python truthiness (`None` and the empty dict are falsy),
and `score_info["lamp"] != "FAILED"` is an unguarded access, modelled with
`dictFind`; it is total here because every `convert_play` result binds
`"lamp"` (see `convert_play_shape`). -/
def collectScores (preserve_fails : Bool) (plays : List Dict) : List Dict :=
  match plays with
  | [] => []
  | play :: rest =>
    match convert_play play with
    | none => collectScores preserve_fails rest
    | some score_info =>
      if pyTruthyDict score_info then
        if preserve_fails || !pyEqStrOpt (dictFind score_info "lamp") "FAILED" then
          score_info :: collectScores preserve_fails rest
        else collectScores preserve_fails rest
      else collectScores preserve_fails rest

/-! ## Serialization (`save_results`, `main.py` lines 120–128)

`json.dump(results, f, indent=None)` uses the default separators
`", "` and `": "` and `ensure_ascii=True`: every character outside
`0x20–0x7E`, plus `"` and `\`, is escaped; code points above `0xFFFF` are
written as surrogate pairs. -/

/-- One hex digit, lower case (as CPython emits). -/
def hexDigitChar (n : Nat) : Char :=
  if n < 10 then Char.ofNat (48 + n) else Char.ofNat (87 + n)

/-- Four-digit hex rendering of a code unit for a `\uXXXX` escape. -/
def hex4 (n : Nat) : String :=
  String.mk [hexDigitChar (n / 4096 % 16), hexDigitChar (n / 256 % 16),
             hexDigitChar (n / 16 % 16), hexDigitChar (n % 16)]

/-- Escape one character the way CPython's `json` encoder does with
`ensure_ascii=True`. -/
def jsonEscapeChar (c : Char) : String :=
  if c = '"' then "\\\""
  else if c = '\\' then "\\\\"
  else if c = '\n' then "\\n"
  else if c = '\r' then "\\r"
  else if c = '\t' then "\\t"
  else if c.toNat = 8 then "\\b"
  else if c.toNat = 12 then "\\f"
  else if 32 ≤ c.toNat ∧ c.toNat ≤ 126 then String.mk [c]
  else if c.toNat ≤ 65535 then "\\u" ++ hex4 c.toNat
  else
    "\\u" ++ hex4 (55296 + (c.toNat - 65536) / 1024) ++
    "\\u" ++ hex4 (56320 + (c.toNat - 65536) % 1024)

/-- A JSON string literal as CPython's encoder emits it. -/
def jsonEscape (s : String) : String :=
  "\"" ++ String.join (s.toList.map jsonEscapeChar) ++ "\""

/-- `json.dump(v, f, indent=None)`: compact one-line JSON with the default
item separator `", "` and key separator `": "`. -/
def pyJsonDump : JValue → String
  | .null => "null"
  | .bool true => "true"
  | .bool false => "false"
  | .num n => toString n
  | .str s => jsonEscape s
  | .arr xs =>
      "[" ++ String.intercalate ", " (xs.attach.map fun x => pyJsonDump x.1) ++ "]"
  | .obj fs =>
      "\x7b" ++
        String.intercalate ", "
          (fs.attach.map fun p => jsonEscape p.1.1 ++ ": " ++ pyJsonDump p.1.2) ++
      "\x7d"
decreasing_by
  · have := List.sizeOf_lt_of_mem x.2
    simp only [JValue.arr.sizeOf_spec]
    omega
  · have h1 := List.sizeOf_lt_of_mem p.2
    have h2 : sizeOf p.1.2 < sizeOf p.1 := by
      rcases p with ⟨⟨k, v⟩, hp⟩
      simp only [Prod.mk.sizeOf_spec]
      omega
    simp only [JValue.obj.sizeOf_spec]
    omega

/-! ## The whole pipeline (`main`, `main.py` lines 131–164) -/

/-- The run-time configuration constants of `main.py` that affect the output
value: the target profile id and the fail-preservation flag (the two paths
only say where bytes come from and go to). -/
structure Config where
  profile_id : String
  preserve_fails : Bool

/-- `PRESERVE_FAILS` constant of `main.py`. -/
def PRESERVE_FAILS : Bool := true

/-- `main` up to the final JSON document: load, filter to the user, convert
each play under the fail-preservation policy, wrap with `META`. -/
def mainResult (lines : List ParsedLine) (cfg : Config) : Except LoadError JValue :=
  match load_plays_database lines with
  | .error e => .error e
  | .ok data_points =>
    let plays_for_user := filter_user_scores (data_points.filterMap
      (fun v => match v with | .obj fs => some fs | _ => none)) cfg.profile_id
    let score_results := collectScores cfg.preserve_fails plays_for_user
    .ok (.obj [("meta", .obj META), ("scores", .arr (score_results.map .obj))])

/-- The bytes `save_results` writes: the serialized aggregate document. -/
def runPipeline (lines : List ParsedLine) (cfg : Config) : Except LoadError String :=
  match mainResult lines cfg with
  | .error e => .error e
  | .ok doc => .ok (pyJsonDump doc)

/-- Whether a JSON value is an object (a Python dict after parsing). -/
def isObj : JValue → Bool
  | .obj _ => true
  | _ => false

/-- The loader's selection criterion, read off a parsed value:
`play.get("collection", None) == "music"` (meaningful on dicts only). -/
def collectionIsMusic : JValue → Bool
  | .obj fs => pyEqStrOpt (dictFind fs "collection") "music"
  | _ => false

/-- The end-to-end scenario record of the spec's testable properties. -/
def samplePlayC3 : Dict :=
  [("collection", .str "music"), ("__refid", .str "U1"), ("__s", .str "plugins_profile"),
   ("score", .num 9000000), ("exscore", .num 0), ("mid", .str "42"), ("clear", .num 2),
   ("type", .num 0), ("createdAt", .obj [("$$date", .num 1700000000000)])]

/-- The same record with an unknown clear code, for exercising skip paths. -/
def samplePlayBadClear : Dict :=
  [("collection", .str "music"), ("__refid", .str "U1"), ("__s", .str "plugins_profile"),
   ("score", .num 9000000), ("exscore", .num 0), ("mid", .str "42"), ("clear", .num 9),
   ("type", .num 0), ("createdAt", .obj [("$$date", .num 1700000000000)])]

/-- The same record with the required `score` field removed. -/
def samplePlayNoScore : Dict :=
  [("collection", .str "music"), ("__refid", .str "U1"), ("__s", .str "plugins_profile"),
   ("exscore", .num 0), ("mid", .str "42"), ("clear", .num 2),
   ("type", .num 0), ("createdAt", .obj [("$$date", .num 1700000000000)])]

/-- The sample record with clear code 1, converting to lamp `"FAILED"`. -/
def samplePlayFailed : Dict :=
  [("collection", .str "music"), ("__refid", .str "U1"), ("__s", .str "plugins_profile"),
   ("score", .num 8000000), ("exscore", .num 0), ("mid", .str "42"), ("clear", .num 1),
   ("type", .num 0), ("createdAt", .obj [("$$date", .num 1700000000000)])]

/-- The sample record with a positive secondary score of 120. -/
def samplePlayEx120 : Dict :=
  [("collection", .str "music"), ("__refid", .str "U1"), ("__s", .str "plugins_profile"),
   ("score", .num 9000000), ("exscore", .num 120), ("mid", .str "42"), ("clear", .num 2),
   ("type", .num 0), ("createdAt", .obj [("$$date", .num 1700000000000)])]

/-- What `convert_play` yields on `samplePlayC3`. -/
def convertedSample : Dict :=
  convertedBase "42" 9000000 "CLEAR" "NOV" 1700000000000

/-- What `convert_play` yields on `samplePlayEx120`. -/
def convertedSampleEx120 : Dict :=
  convertedBase "42" 9000000 "CLEAR" "NOV" 1700000000000 ++
    [("optional", .obj [("exScore", .num 120)])]

/-! ## Supporting lemmas -/
theorem dictFind_of_getItemE_ok {d : Dict} {k : String} {v : JValue}
    (h : getItemE d k = Except.ok v) : dictFind d k = some v := by
  unfold getItemE at h
  cases hd : dictFind d k <;> rw [hd] at h <;> simp_all

theorem pyGetD_of_dictFind_some {d : Dict} {k : String} {v df : JValue}
    (h : dictFind d k = some v) : pyGetD d k df = v := by
  unfold pyGetD
  rw [h]

theorem pyGtZero_true_pos {v : JValue} {e : Int}
    (hg : pyGtZero v = some true) (hc : pyIntCoerce v = some e) : 0 < e := by
  cases v <;> simp [pyGtZero] at hg
  · subst hg
    simp [pyIntCoerce] at hc
    omega
  · simp [pyIntCoerce] at hc
    omega

theorem convertPlayTry_ok_some_inv (play r : Dict)
    (h : convertPlayTry play = Except.ok (some r)) :
    ∃ scoreV score midV createdV dateV t clearV lamp typeV diff,
      dictFind play "score" = some scoreV ∧ pyIntCoerce scoreV = some score ∧
      dictFind play "mid" = some midV ∧
      dictFind play "createdAt" = some createdV ∧
      pyIndexE createdV "$$date" = Except.ok dateV ∧
      pyIntCoerce dateV = some t ∧
      dictFind play "clear" = some clearV ∧
      intMapGetE CLEAR_TYPE_MAP clearV = Except.ok lamp ∧
      dictFind play "type" = some typeV ∧
      intMapGetE DIFFICULTY_MAP typeV = Except.ok diff ∧
      ((pyGtZero (pyGetD play "exscore" (JValue.num 0)) = some false ∧
          r = convertedBase (pyStrCoerce midV) score lamp diff t) ∨
       (∃ exV e, dictFind play "exscore" = some exV ∧ pyGtZero exV = some true ∧
          pyIntCoerce exV = some e ∧ 0 < e ∧
          r = convertedBase (pyStrCoerce midV) score lamp diff t ++
              [("optional", JValue.obj [("exScore", JValue.num e)])])) := by
  unfold convertPlayTry at h
  cases hs : getItemE play "score" with
  | error u => simp [hs] at h
  | ok scoreV =>
  simp only [hs] at h
  cases hsc : pyIntCoerce scoreV with
  | none => simp [hsc] at h
  | some score =>
  simp only [hsc] at h
  cases hcond : pyGtZero (pyGetD play "exscore" (JValue.num 0)) with
  | none => simp [hcond] at h
  | some cond =>
  simp only [hcond] at h
  cases cond with
  | false =>
    simp only [Bool.false_eq_true, if_false] at h
    cases hm : getItemE play "mid" with
    | error u => simp [hm] at h
    | ok midV =>
    simp only [hm] at h
    cases hca : getItemE play "createdAt" with
    | error u => simp [hca] at h
    | ok createdV =>
    simp only [hca] at h
    cases hd : pyIndexE createdV "$$date" with
    | error u => simp [hd] at h
    | ok dateV =>
    simp only [hd] at h
    cases ht : pyIntCoerce dateV with
    | none => simp [ht] at h
    | some t =>
    simp only [ht] at h
    cases hcl : getItemE play "clear" with
    | error u => simp [hcl] at h
    | ok clearV =>
    simp only [hcl] at h
    cases hmem : intMapMem CLEAR_TYPE_MAP clearV with
    | false => simp [hmem] at h
    | true =>
    simp [hmem] at h
    cases hlk : intMapGetE CLEAR_TYPE_MAP clearV with
    | error u => simp [hlk] at h
    | ok lamp =>
    simp only [hlk] at h
    cases hty : getItemE play "type" with
    | error u => simp [hty] at h
    | ok typeV =>
    simp only [hty] at h
    cases hmem2 : intMapMem DIFFICULTY_MAP typeV with
    | false =>
      simp only [hmem2] at h
      cases hdw : getItemE play "difficulty" with
      | error u => simp [hdw] at h
      | ok w => simp [hdw] at h
    | true =>
    simp [hmem2] at h
    cases hlk2 : intMapGetE DIFFICULTY_MAP typeV with
    | error u => simp [hlk2] at h
    | ok diff =>
    simp only [hlk2] at h
    simp only [Except.ok.injEq, Option.some.injEq] at h
    exact ⟨scoreV, score, midV, createdV, dateV, t, clearV, lamp, typeV, diff,
      dictFind_of_getItemE_ok hs, hsc, dictFind_of_getItemE_ok hm,
      dictFind_of_getItemE_ok hca, hd, ht, dictFind_of_getItemE_ok hcl, hlk,
      dictFind_of_getItemE_ok hty, hlk2, Or.inl ⟨rfl, h.symm⟩⟩
  | true =>
    simp only [if_true, reduceIte] at h
    cases hex : getItemE play "exscore" with
    | error u => simp [hex] at h
    | ok exV =>
    simp only [hex] at h
    cases hexc : pyIntCoerce exV with
    | none => simp [hexc] at h
    | some e =>
    simp only [hexc] at h
    cases hm : getItemE play "mid" with
    | error u => simp [hm] at h
    | ok midV =>
    simp only [hm] at h
    cases hca : getItemE play "createdAt" with
    | error u => simp [hca] at h
    | ok createdV =>
    simp only [hca] at h
    cases hd : pyIndexE createdV "$$date" with
    | error u => simp [hd] at h
    | ok dateV =>
    simp only [hd] at h
    cases ht : pyIntCoerce dateV with
    | none => simp [ht] at h
    | some t =>
    simp only [ht] at h
    cases hcl : getItemE play "clear" with
    | error u => simp [hcl] at h
    | ok clearV =>
    simp only [hcl] at h
    cases hmem : intMapMem CLEAR_TYPE_MAP clearV with
    | false => simp [hmem] at h
    | true =>
    simp [hmem] at h
    cases hlk : intMapGetE CLEAR_TYPE_MAP clearV with
    | error u => simp [hlk] at h
    | ok lamp =>
    simp only [hlk] at h
    cases hty : getItemE play "type" with
    | error u => simp [hty] at h
    | ok typeV =>
    simp only [hty] at h
    cases hmem2 : intMapMem DIFFICULTY_MAP typeV with
    | false =>
      simp only [hmem2] at h
      cases hdw : getItemE play "difficulty" with
      | error u => simp [hdw] at h
      | ok w => simp [hdw] at h
    | true =>
    simp [hmem2] at h
    cases hlk2 : intMapGetE DIFFICULTY_MAP typeV with
    | error u => simp [hlk2] at h
    | ok diff =>
    simp only [hlk2] at h
    have hgt : pyGtZero exV = some true := by
      rw [pyGetD_of_dictFind_some (dictFind_of_getItemE_ok hex)] at hcond
      exact hcond
    have hpos : 0 < e := pyGtZero_true_pos hgt hexc
    rw [if_pos hpos] at h
    simp only [Except.ok.injEq, Option.some.injEq] at h
    exact ⟨scoreV, score, midV, createdV, dateV, t, clearV, lamp, typeV, diff,
      dictFind_of_getItemE_ok hs, hsc, dictFind_of_getItemE_ok hm,
      dictFind_of_getItemE_ok hca, hd, ht, dictFind_of_getItemE_ok hcl, hlk,
      dictFind_of_getItemE_ok hty, hlk2,
      Or.inr ⟨exV, e, dictFind_of_getItemE_ok hex, hgt, hexc, hpos, h.symm⟩⟩
theorem convert_play_some_inv (play r : Dict) (h : convert_play play = some r) :
    ∃ scoreV score midV createdV dateV t clearV lamp typeV diff,
      dictFind play "score" = some scoreV ∧ pyIntCoerce scoreV = some score ∧
      dictFind play "mid" = some midV ∧
      dictFind play "createdAt" = some createdV ∧
      pyIndexE createdV "$$date" = Except.ok dateV ∧
      pyIntCoerce dateV = some t ∧
      dictFind play "clear" = some clearV ∧
      intMapGetE CLEAR_TYPE_MAP clearV = Except.ok lamp ∧
      dictFind play "type" = some typeV ∧
      intMapGetE DIFFICULTY_MAP typeV = Except.ok diff ∧
      ((pyGtZero (pyGetD play "exscore" (JValue.num 0)) = some false ∧
          r = convertedBase (pyStrCoerce midV) score lamp diff t) ∨
       (∃ exV e, dictFind play "exscore" = some exV ∧ pyGtZero exV = some true ∧
          pyIntCoerce exV = some e ∧ 0 < e ∧
          r = convertedBase (pyStrCoerce midV) score lamp diff t ++
              [("optional", JValue.obj [("exScore", JValue.num e)])])) := by
  unfold convert_play at h
  cases htry : convertPlayTry play with
  | error u => rw [htry] at h; exact Option.noConfusion h
  | ok r0 =>
    simp only [htry] at h
    subst h
    exact convertPlayTry_ok_some_inv play r htry

theorem dictFind_base_lamp (i : String) (sc : Int) (l d : String) (t : Int) (opt : Dict) :
    dictFind (convertedBase i sc l d t ++ opt) "lamp" = some (JValue.str l) := rfl

theorem dictFind_base_difficulty (i : String) (sc : Int) (l d : String) (t : Int) (opt : Dict) :
    dictFind (convertedBase i sc l d t ++ opt) "difficulty" = some (JValue.str d) := rfl

theorem dictFind_base_optional_none (i : String) (sc : Int) (l d : String) (t : Int) :
    dictFind (convertedBase i sc l d t) "optional" = none := rfl

theorem dictFind_base_optional_some (i : String) (sc : Int) (l d : String) (t : Int)
    (v : JValue) :
    dictFind (convertedBase i sc l d t ++ [("optional", v)]) "optional" = some v := rfl

theorem pyTruthy_base (i : String) (sc : Int) (l d : String) (t : Int) (opt : Dict) :
    pyTruthyDict (convertedBase i sc l d t ++ opt) = true := rfl

theorem intMapGetE_num_iff (m : List (Int × String)) (c : Int) (s : String) :
    intMapGetE m (JValue.num c) = Except.ok s ↔ intMapFind m c = some s := by
  unfold intMapGetE pyIntKey
  cases hf : intMapFind m c <;> simp_all

theorem intMapFind_clear_none {c : Int} (h : c < 1 ∨ 6 < c) :
    intMapFind CLEAR_TYPE_MAP c = none := by
  simp only [CLEAR_TYPE_MAP, intMapFind]
  rw [if_neg (by omega), if_neg (by omega), if_neg (by omega),
      if_neg (by omega), if_neg (by omega), if_neg (by omega)]

theorem intMapFind_clear_range {c : Int} {s : String}
    (h : intMapFind CLEAR_TYPE_MAP c = some s) : 1 ≤ c ∧ c ≤ 6 := by
  by_contra hc
  rw [intMapFind_clear_none (by omega)] at h
  exact Option.noConfusion h

theorem intMapFind_diff_none {d : Int} (h : d < 0 ∨ 4 < d) :
    intMapFind DIFFICULTY_MAP d = none := by
  simp only [DIFFICULTY_MAP, intMapFind]
  rw [if_neg (by omega), if_neg (by omega), if_neg (by omega),
      if_neg (by omega), if_neg (by omega)]

theorem intMapFind_diff_range {d : Int} {s : String}
    (h : intMapFind DIFFICULTY_MAP d = some s) : 0 ≤ d ∧ d ≤ 4 := by
  by_contra hc
  rw [intMapFind_diff_none (by omega)] at h
  exact Option.noConfusion h

theorem convert_play_truthy_lamp {play r : Dict} (h : convert_play play = some r) :
    pyTruthyDict r = true ∧ ∃ l, dictFind r "lamp" = some (JValue.str l) := by
  obtain ⟨scoreV, score, midV, createdV, dateV, t, clearV, lamp, typeV, diff,
    _, _, _, _, _, _, _, _, _, _, hdisj⟩ := convert_play_some_inv play r h
  rcases hdisj with ⟨_, hr⟩ | ⟨exV, e, _, _, _, _, hr⟩ <;> subst hr
  · exact ⟨rfl, lamp, rfl⟩
  · exact ⟨rfl, lamp, rfl⟩
/-- C1: `convert_play` maps clear-state codes 1–6 to FAILED, CLEAR,
EXCESSIVE CLEAR, ULTIMATE CHAIN, PERFECT ULTIMATE CHAIN, MAXXIVE CLEAR and
difficulty codes 0–4 to NOV, ADV, EXH, ANY_INF, MXM; any numeric clear code
outside 1–6 or difficulty code outside 0–4 makes the converter return no
result, and being a total function into `Option Dict` it never raises an
exception to its caller. -/
theorem claim1_enum_tables :
    (intMapFind CLEAR_TYPE_MAP 1 = some "FAILED" ∧
     intMapFind CLEAR_TYPE_MAP 2 = some "CLEAR" ∧
     intMapFind CLEAR_TYPE_MAP 3 = some "EXCESSIVE CLEAR" ∧
     intMapFind CLEAR_TYPE_MAP 4 = some "ULTIMATE CHAIN" ∧
     intMapFind CLEAR_TYPE_MAP 5 = some "PERFECT ULTIMATE CHAIN" ∧
     intMapFind CLEAR_TYPE_MAP 6 = some "MAXXIVE CLEAR") ∧
    (intMapFind DIFFICULTY_MAP 0 = some "NOV" ∧
     intMapFind DIFFICULTY_MAP 1 = some "ADV" ∧
     intMapFind DIFFICULTY_MAP 2 = some "EXH" ∧
     intMapFind DIFFICULTY_MAP 3 = some "ANY_INF" ∧
     intMapFind DIFFICULTY_MAP 4 = some "MXM") ∧
    (∀ (play r : Dict) (c : Int), convert_play play = some r →
      dictFind play "clear" = some (JValue.num c) →
      (1 ≤ c ∧ c ≤ 6) ∧
      ∃ l, intMapFind CLEAR_TYPE_MAP c = some l ∧
        dictFind r "lamp" = some (JValue.str l)) ∧
    (∀ (play r : Dict) (d : Int), convert_play play = some r →
      dictFind play "type" = some (JValue.num d) →
      (0 ≤ d ∧ d ≤ 4) ∧
      ∃ l, intMapFind DIFFICULTY_MAP d = some l ∧
        dictFind r "difficulty" = some (JValue.str l)) ∧
    (∀ (play : Dict) (c : Int), dictFind play "clear" = some (JValue.num c) →
      (c < 1 ∨ 6 < c) → convert_play play = none) ∧
    (∀ (play : Dict) (d : Int), dictFind play "type" = some (JValue.num d) →
      (d < 0 ∨ 4 < d) → convert_play play = none) := by
  refine ⟨⟨rfl, rfl, rfl, rfl, rfl, rfl⟩, ⟨rfl, rfl, rfl, rfl, rfl⟩, ?_, ?_, ?_, ?_⟩
  · intro play r c hconv hclear
    obtain ⟨scoreV, score, midV, createdV, dateV, t, clearV, lamp, typeV, diff,
      _, _, _, _, _, _, hcl, hlk, _, _, hdisj⟩ := convert_play_some_inv play r hconv
    rw [hclear] at hcl
    cases hcl
    rw [intMapGetE_num_iff] at hlk
    refine ⟨intMapFind_clear_range hlk, lamp, hlk, ?_⟩
    rcases hdisj with ⟨_, hr⟩ | ⟨exV, e, _, _, _, _, hr⟩ <;> subst hr
    · exact dictFind_base_lamp _ _ _ _ _ []
    · exact dictFind_base_lamp _ _ _ _ _ _
  · intro play r d hconv htype
    obtain ⟨scoreV, score, midV, createdV, dateV, t, clearV, lamp, typeV, diff,
      _, _, _, _, _, _, _, _, hty, hlk2, hdisj⟩ := convert_play_some_inv play r hconv
    rw [htype] at hty
    cases hty
    rw [intMapGetE_num_iff] at hlk2
    refine ⟨intMapFind_diff_range hlk2, diff, hlk2, ?_⟩
    rcases hdisj with ⟨_, hr⟩ | ⟨exV, e, _, _, _, _, hr⟩ <;> subst hr
    · exact dictFind_base_difficulty _ _ _ _ _ []
    · exact dictFind_base_difficulty _ _ _ _ _ _
  · intro play c hclear hout
    cases hconv : convert_play play with
    | none => rfl
    | some r =>
      exfalso
      obtain ⟨scoreV, score, midV, createdV, dateV, t, clearV, lamp, typeV, diff,
        _, _, _, _, _, _, hcl, hlk, _, _, _⟩ := convert_play_some_inv play r hconv
      rw [hclear] at hcl
      cases hcl
      rw [intMapGetE_num_iff] at hlk
      rw [intMapFind_clear_none hout] at hlk
      exact Option.noConfusion hlk
  · intro play d htype hout
    cases hconv : convert_play play with
    | none => rfl
    | some r =>
      exfalso
      obtain ⟨scoreV, score, midV, createdV, dateV, t, clearV, lamp, typeV, diff,
        _, _, _, _, _, _, _, _, hty, hlk2, _⟩ := convert_play_some_inv play r hconv
      rw [htype] at hty
      cases hty
      rw [intMapGetE_num_iff] at hlk2
      rw [intMapFind_diff_none hout] at hlk2
      exact Option.noConfusion hlk2

/-- Witness for C1 at concrete inputs: clear code 9 (outside 1–6) makes the
converter skip the record, and the successful sample record with clear code 2
carries lamp `"CLEAR"`. -/
theorem claim1_enum_tables_witness :
    convert_play samplePlayBadClear = none ∧
    ((1 ≤ (2 : Int) ∧ (2 : Int) ≤ 6) ∧
      ∃ l, intMapFind CLEAR_TYPE_MAP 2 = some l ∧
        dictFind convertedSample "lamp" = some (JValue.str l)) :=
  ⟨claim1_enum_tables.2.2.2.2.1 samplePlayBadClear 9 rfl (by omega),
   claim1_enum_tables.2.2.1 samplePlayC3 convertedSample 2 rfl rfl⟩
/-- C2: a successfully converted record carries the `optional` block with
`exScore` exactly when the source `exscore` is present and strictly positive;
when present it carries that integer value (absent source exscore, or source
exscore ≤ 0, gives no block). -/
theorem claim2_exscore_optional :
    ∀ play r : Dict, convert_play play = some r →
      (dictFind play "exscore" = none → dictFind r "optional" = none) ∧
      ∀ n : Int, dictFind play "exscore" = some (JValue.num n) →
        (0 < n →
          dictFind r "optional" = some (JValue.obj [("exScore", JValue.num n)])) ∧
        (n ≤ 0 → dictFind r "optional" = none) := by
  intro play r hconv
  obtain ⟨scoreV, score, midV, createdV, dateV, t, clearV, lamp, typeV, diff,
    _, _, _, _, _, _, _, _, _, _, hdisj⟩ := convert_play_some_inv play r hconv
  constructor
  · intro habs
    rcases hdisj with ⟨_, hr⟩ | ⟨exV, e, hex, _, _, _, _⟩
    · subst hr
      exact dictFind_base_optional_none _ _ _ _ _
    · rw [habs] at hex
      exact Option.noConfusion hex
  · intro n hn
    rcases hdisj with ⟨hfalse, hr⟩ | ⟨exV, e, hex, hgt, hcoe, hpos, hr⟩
    · have hd : pyGetD play "exscore" (JValue.num 0) = JValue.num n :=
        pyGetD_of_dictFind_some hn
      rw [hd] at hfalse
      simp only [pyGtZero, Option.some.injEq] at hfalse
      subst hr
      have hnp : ¬ 0 < n := of_decide_eq_false hfalse
      exact ⟨fun hp => absurd hp hnp, fun _ => dictFind_base_optional_none _ _ _ _ _⟩
    · rw [hn] at hex
      cases hex
      simp only [pyIntCoerce, Option.some.injEq] at hcoe
      subst hcoe
      subst hr
      refine ⟨fun _ => dictFind_base_optional_some _ _ _ _ _ _, fun hle => absurd hpos (by omega)⟩ 
/-- Witness for C2: the sample record with `exscore = 120` converts with the
optional `exScore` block carrying 120, and the sample record with
`exscore = 0` converts without the block. -/
theorem claim2_exscore_optional_witness :
    dictFind convertedSampleEx120 "optional" =
      some (JValue.obj [("exScore", JValue.num 120)]) ∧
    dictFind convertedSample "optional" = none :=
  ⟨((claim2_exscore_optional samplePlayEx120 convertedSampleEx120 rfl).2
      120 rfl).1 (by omega),
   ((claim2_exscore_optional samplePlayC3 convertedSample rfl).2
      0 rfl).2 (by omega)⟩

/-- C4: every exception raised inside `convert_play`'s `try` body is caught
and turned into a `None` result; in particular a record missing the required
`score`, `mid` or `createdAt` field, or whose `score` cannot be coerced to an
integer, yields no result; `convert_play` is a total function into
`Option Dict`, so no exception propagates to the caller. -/
theorem claim4_per_record_exceptions :
    ∀ play : Dict,
      (∀ u : Unit, convertPlayTry play = Except.error u → convert_play play = none) ∧
      (dictFind play "score" = none → convert_play play = none) ∧
      (dictFind play "mid" = none → convert_play play = none) ∧
      (dictFind play "createdAt" = none → convert_play play = none) ∧
      (∀ v, dictFind play "score" = some v → pyIntCoerce v = none →
        convert_play play = none) := by
  intro play
  refine ⟨?_, ?_, ?_, ?_, ?_⟩
  · intro u h
    unfold convert_play
    rw [h]
  · intro habs
    cases hconv : convert_play play with
    | none => rfl
    | some r =>
      obtain ⟨scoreV, _, _, _, _, _, _, _, _, _, hs, _⟩ :=
        convert_play_some_inv play r hconv
      rw [habs] at hs
      exact Option.noConfusion hs
  · intro habs
    cases hconv : convert_play play with
    | none => rfl
    | some r =>
      obtain ⟨_, _, midV, _, _, _, _, _, _, _, _, _, hm, _⟩ :=
        convert_play_some_inv play r hconv
      rw [habs] at hm
      exact Option.noConfusion hm
  · intro habs
    cases hconv : convert_play play with
    | none => rfl
    | some r =>
      obtain ⟨_, _, _, createdV, _, _, _, _, _, _, _, _, _, hca, _⟩ :=
        convert_play_some_inv play r hconv
      rw [habs] at hca
      exact Option.noConfusion hca
  · intro v hv hcoe
    cases hconv : convert_play play with
    | none => rfl
    | some r =>
      obtain ⟨scoreV, score, _, _, _, _, _, _, _, _, hs, hsc, _⟩ :=
        convert_play_some_inv play r hconv
      rw [hv] at hs
      cases hs
      rw [hcoe] at hsc
      exact Option.noConfusion hsc

/-- Witness for C4: the sample record with no `score` field is skipped, and
the raised `KeyError` modelled in the `try` body is caught. -/
theorem claim4_per_record_exceptions_witness :
    convert_play samplePlayNoScore = none ∧ convert_play samplePlayNoScore = none :=
  ⟨(claim4_per_record_exceptions samplePlayNoScore).2.1 rfl,
   (claim4_per_record_exceptions samplePlayNoScore).1 () rfl⟩
/-- C3: on the single input line of the spec's end-to-end scenario with
target owner `"U1"`, the pipeline produces exactly one output score record —
match type `sdvxInGameID`, identifier `"42"`, score 9000000, lamp `CLEAR`,
difficulty `NOV`, time achieved 1700000000000 — with no `optional` block. -/
theorem claim3_end_to_end :
    mainResult [ParsedLine.ok (JValue.obj samplePlayC3)] ⟨"U1", PRESERVE_FAILS⟩ =
      Except.ok (JValue.obj
        [("meta", JValue.obj META),
         ("scores", JValue.arr [JValue.obj
           [("matchType", JValue.str "sdvxInGameID"),
            ("identifier", JValue.str "42"),
            ("score", JValue.num 9000000),
            ("lamp", JValue.str "CLEAR"),
            ("difficulty", JValue.str "NOV"),
            ("timeAchieved", JValue.num 1700000000000)]])]) := rfl

/-- C6: `filter_user_scores` returns exactly the order-preserving
subsequence of records whose `__refid` equals the target identifier and
whose `__s` equals `"plugins_profile"`; it is a total function, and an empty
result is possible (it is just `List.filter`). -/
theorem claim6_user_filter :
    ∀ (scores : List Dict) (profile_id : String),
      List.Sublist (filter_user_scores scores profile_id) scores ∧
      (∀ r ∈ filter_user_scores scores profile_id,
        pyEqStrOpt (dictFind r "__refid") profile_id = true ∧
        pyEqStrOpt (dictFind r "__s") "plugins_profile" = true) ∧
      (∀ r ∈ scores,
        pyEqStrOpt (dictFind r "__refid") profile_id = true →
        pyEqStrOpt (dictFind r "__s") "plugins_profile" = true →
        r ∈ filter_user_scores scores profile_id) ∧
      filter_user_scores scores profile_id =
        scores.filter (fun point =>
          pyEqStrOpt (dictFind point "__refid") profile_id &&
          pyEqStrOpt (dictFind point "__s") "plugins_profile") := by
  intro scores profile_id
  refine ⟨List.filter_sublist scores, ?_, ?_, rfl⟩
  · intro r hr
    rw [filter_user_scores, List.mem_filter] at hr
    have := hr.2
    rw [userScorePred] at this
    exact And.imp_left id (by simpa using this)
  · intro r hr h1 h2
    rw [filter_user_scores, List.mem_filter]
    exact ⟨hr, by rw [userScorePred]; simp [h1, h2]⟩

/-- Witness for C6: the sample record survives the filter for owner `"U1"`
and satisfies both conditions. -/
theorem claim6_user_filter_witness :
    pyEqStrOpt (dictFind samplePlayC3 "__refid") "U1" = true ∧
    pyEqStrOpt (dictFind samplePlayC3 "__s") "plugins_profile" = true :=
  (claim6_user_filter [samplePlayC3] "U1").2.1 samplePlayC3
    (List.mem_singleton_self samplePlayC3)
/-- C7: with the fail-preservation flag set, `main`'s conversion loop keeps
every successfully converted record in input order; with it unset, it keeps
exactly the converted records whose lamp is not `"FAILED"`, in input order,
so the output then contains no `"FAILED"`-lamp record. -/
theorem claim7_fail_preservation :
    (∀ plays : List Dict, collectScores true plays = plays.filterMap convert_play) ∧
    (∀ plays : List Dict, collectScores false plays =
      (plays.filterMap convert_play).filter
        (fun r => !pyEqStrOpt (dictFind r "lamp") "FAILED")) ∧
    (∀ (plays : List Dict) (r : Dict), r ∈ collectScores false plays →
      pyEqStrOpt (dictFind r "lamp") "FAILED" = false) := by
  have h1 : ∀ plays : List Dict, collectScores true plays = plays.filterMap convert_play := by
    intro plays
    induction plays with
    | nil => rfl
    | cons play rest ih =>
      rw [collectScores, List.filterMap_cons]
      cases hconv : convert_play play with
      | none => exact ih
      | some r =>
        dsimp only
        rw [(convert_play_truthy_lamp hconv).1]
        simp only [Bool.true_or, if_true, ih, reduceIte]
  have h2 : ∀ plays : List Dict, collectScores false plays =
      (plays.filterMap convert_play).filter
        (fun r => !pyEqStrOpt (dictFind r "lamp") "FAILED") := by
    intro plays
    induction plays with
    | nil => rfl
    | cons play rest ih =>
      rw [collectScores, List.filterMap_cons]
      cases hconv : convert_play play with
      | none => exact ih
      | some r =>
        dsimp only
        rw [(convert_play_truthy_lamp hconv).1, List.filter_cons]
        simp only [Bool.false_or, if_true, ih, reduceIte]
  refine ⟨h1, h2, ?_⟩
  intro plays r hr
  rw [h2] at hr
  have := (List.mem_filter.mp hr).2
  simpa using this
/-- Witness for C7: the converted sample record survives the loop with the
flag unset and its lamp is not `"FAILED"`. -/
theorem claim7_fail_preservation_witness :
    pyEqStrOpt (dictFind convertedSample "lamp") "FAILED" = false :=
  claim7_fail_preservation.2.2 [samplePlayC3] convertedSample
    (List.mem_singleton_self convertedSample)

theorem parseAllLines_map_ok (vs : List JValue) :
    parseAllLines (vs.map ParsedLine.ok) = Except.ok vs := by
  induction vs with
  | nil => rfl
  | cons v rest ih => simp [parseAllLines, ih]

theorem filterMusic_objs (ds : List Dict) :
    filterMusic (ds.map JValue.obj) =
      Except.ok ((ds.map JValue.obj).filter collectionIsMusic) := by
  induction ds with
  | nil => rfl
  | cons fs rest ih => simp [filterMusic, ih, List.filter_cons, collectionIsMusic]

theorem parseAllLines_append_malformed (xs ys : List ParsedLine) :
    parseAllLines (xs ++ ParsedLine.malformed :: ys) = Except.error LoadError.parseError := by
  induction xs with
  | nil => rfl
  | cons p rest ih =>
    cases p with
    | malformed => rfl
    | ok v => simp [parseAllLines, ih]

theorem parseAllLines_no_malformed (lines : List ParsedLine)
    (h : ∀ p ∈ lines, p ≠ ParsedLine.malformed) :
    ∃ vs, parseAllLines lines = Except.ok vs ∧
      ∀ v, ParsedLine.ok v ∈ lines → v ∈ vs := by
  induction lines with
  | nil => exact ⟨[], rfl, by simp⟩
  | cons p rest ih =>
    obtain ⟨vs, hvs, hsub⟩ := ih (fun q hq => h q (List.mem_cons_of_mem p hq))
    cases p with
    | malformed => exact absurd rfl (h _ (List.mem_cons_self _ _))
    | ok v0 =>
      refine ⟨v0 :: vs, by simp [parseAllLines, hvs], ?_⟩
      intro v hv
      rcases List.mem_cons.mp hv with heq | hmem
      · cases heq
        exact List.mem_cons_self _ _
      · exact List.mem_cons_of_mem _ (hsub v hmem)

theorem filterMusic_attrError {v : JValue} {vs : List JValue}
    (hmem : v ∈ vs) (hobj : isObj v = false) :
    filterMusic vs = Except.error LoadError.attrError := by
  induction vs with
  | nil => exact absurd hmem (List.not_mem_nil v)
  | cons u rest ih =>
    rcases List.mem_cons.mp hmem with heq | hmem'
    · subst heq
      cases v <;> first | rfl | exact absurd hobj (by simp [isObj])
    · cases u with
      | obj fs => simp [filterMusic, ih hmem']
      | null => rfl
      | bool b => rfl
      | num n => rfl
      | str s => rfl
      | arr xs => rfl
/-- C5 counterexample: the one-line file `5` parses as JSON on every line,
yet the loader neither returns the music-filtered records (here `[]`) nor a
parse error: `.get` on the non-dict value raises `AttributeError`, which the
loader re-raises — a third failure mode the claim excludes. -/
theorem claim5_counterexample :
    load_plays_database [ParsedLine.ok (JValue.num 5)] =
      Except.error LoadError.attrError ∧
    load_plays_database [ParsedLine.ok (JValue.num 5)] ≠
      Except.ok ([] : List JValue) :=
  ⟨rfl, fun h => Except.noConfusion h⟩

/-- C5 as amended: when every line parses as a JSON object, the loader
returns exactly the parsed records whose `collection` field equals
`"music"`, in file order; a malformed line anywhere makes the whole load
abort with a parse error (parsing runs before filtering); and — beyond the
claim's two failure modes — a valid-JSON non-object line aborts the load
with an attribute error. -/
theorem claim5_loader_amended :
    (∀ ds : List Dict,
      load_plays_database (ds.map fun fs => ParsedLine.ok (JValue.obj fs)) =
        Except.ok ((ds.map JValue.obj).filter collectionIsMusic)) ∧
    (∀ xs ys : List ParsedLine,
      load_plays_database (xs ++ ParsedLine.malformed :: ys) =
        Except.error LoadError.parseError) := by
  constructor
  · intro ds
    have hmap : (ds.map fun fs => ParsedLine.ok (JValue.obj fs)) =
        (ds.map JValue.obj).map ParsedLine.ok := by
      rw [List.map_map]
      rfl
    rw [load_plays_database, hmap, parseAllLines_map_ok]
    dsimp only
    rw [filterMusic_objs]
  · intro xs ys
    rw [load_plays_database, parseAllLines_append_malformed]

/-- C9: a line that parses as JSON but not as an object aborts the whole
load with an attribute error (provided no line is malformed, which would
abort earlier with a parse error) — an error case beyond the two the spec
states for the loader. -/
theorem claim9_nonmapping_aborts :
    ∀ lines : List ParsedLine,
      (∀ p ∈ lines, p ≠ ParsedLine.malformed) →
      (∃ v, ParsedLine.ok v ∈ lines ∧ isObj v = false) →
      load_plays_database lines = Except.error LoadError.attrError := by
  intro lines hall hex
  obtain ⟨v, hmem, hobj⟩ := hex
  obtain ⟨vs, hparse, hsub⟩ := parseAllLines_no_malformed lines hall
  rw [load_plays_database, hparse]
  exact filterMusic_attrError (hsub v hmem) hobj

/-- Witness for C9: the one-line file `5`. -/
theorem claim9_nonmapping_aborts_witness :
    load_plays_database [ParsedLine.ok (JValue.num 5)] =
      Except.error LoadError.attrError :=
  claim9_nonmapping_aborts [ParsedLine.ok (JValue.num 5)]
    (by intro p hp; rw [List.mem_singleton] at hp; subst hp; intro hco; exact ParsedLine.noConfusion hco)
    ⟨JValue.num 5, List.mem_singleton_self _, rfl⟩

/-- C8: the pipeline is a pure function of the parsed input lines and the
configuration, so two runs on equal inputs and equal configuration produce
byte-identical serialized output. -/
theorem claim8_deterministic :
    ∀ (lines lines2 : List ParsedLine) (cfg cfg2 : Config),
      lines = lines2 → cfg = cfg2 →
      runPipeline lines cfg = runPipeline lines2 cfg2 := by
  intro l l2 c c2 h1 h2
  rw [h1, h2]

/-- Witness for C8 at the sample input. -/
theorem claim8_deterministic_witness :
    runPipeline [ParsedLine.ok (JValue.obj samplePlayC3)] ⟨"U1", true⟩ =
      runPipeline [ParsedLine.ok (JValue.obj samplePlayC3)] ⟨"U1", true⟩ :=
  claim8_deterministic _ _ _ _ rfl rfl
theorem convertPlayTrySt_spec (play : Dict) :
    convertPlayTrySt play = (convertPlayTry play, play) := by
  unfold convertPlayTrySt convertPlayTry getItemSt pyGetDSt
  cases getItemE play "score" with
  | error u => rfl
  | ok scoreV =>
  dsimp only
  cases pyIntCoerce scoreV with
  | none => rfl
  | some score =>
  dsimp only
  cases pyGtZero (pyGetD play "exscore" (JValue.num 0)) with
  | none => rfl
  | some cond =>
  dsimp only
  cases cond with
  | false =>
    simp only [Bool.false_eq_true, if_false]
    cases getItemE play "mid" with
    | error u => rfl
    | ok midV =>
    dsimp only
    cases getItemE play "createdAt" with
    | error u => rfl
    | ok createdV =>
    dsimp only
    cases pyIndexE createdV "$$date" with
    | error u => rfl
    | ok dateV =>
    dsimp only
    cases pyIntCoerce dateV with
    | none => rfl
    | some t =>
    dsimp only
    cases getItemE play "clear" with
    | error u => rfl
    | ok clearV =>
    dsimp only
    cases intMapMem CLEAR_TYPE_MAP clearV with
    | false => simp only [Bool.false_eq_true, not_false_eq_true, if_true]
    | true =>
    simp only [not_true_eq_false, if_false]
    cases intMapGetE CLEAR_TYPE_MAP clearV with
    | error u => rfl
    | ok lamp =>
    dsimp only
    cases getItemE play "type" with
    | error u => rfl
    | ok typeV =>
    dsimp only
    cases intMapMem DIFFICULTY_MAP typeV with
    | false =>
      simp only [Bool.false_eq_true, not_false_eq_true, if_true]
      cases getItemE play "difficulty" with
      | error u => rfl
      | ok w => rfl
    | true =>
    simp only [not_true_eq_false, if_false]
    cases intMapGetE DIFFICULTY_MAP typeV with
    | error u => rfl
    | ok diff => rfl
  | true =>
    simp only [if_true]
    cases getItemE play "exscore" with
    | error u => rfl
    | ok exV =>
    dsimp only
    cases pyIntCoerce exV with
    | none => rfl
    | some e =>
    dsimp only
    cases getItemE play "mid" with
    | error u => rfl
    | ok midV =>
    dsimp only
    cases getItemE play "createdAt" with
    | error u => rfl
    | ok createdV =>
    dsimp only
    cases pyIndexE createdV "$$date" with
    | error u => rfl
    | ok dateV =>
    dsimp only
    cases pyIntCoerce dateV with
    | none => rfl
    | some t =>
    dsimp only
    cases getItemE play "clear" with
    | error u => rfl
    | ok clearV =>
    dsimp only
    cases intMapMem CLEAR_TYPE_MAP clearV with
    | false => simp only [Bool.false_eq_true, not_false_eq_true, if_true]
    | true =>
    simp only [not_true_eq_false, if_false]
    cases intMapGetE CLEAR_TYPE_MAP clearV with
    | error u => rfl
    | ok lamp =>
    dsimp only
    cases getItemE play "type" with
    | error u => rfl
    | ok typeV =>
    dsimp only
    cases intMapMem DIFFICULTY_MAP typeV with
    | false =>
      simp only [Bool.false_eq_true, not_false_eq_true, if_true]
      cases getItemE play "difficulty" with
      | error u => rfl
      | ok w => rfl
    | true =>
    simp only [not_true_eq_false, if_false]
    cases intMapGetE DIFFICULTY_MAP typeV with
    | error u => rfl
    | ok diff =>
      dsimp only
      by_cases hpos : (0 : Int) < e
      · rw [if_pos hpos, if_pos hpos]
      · rw [if_neg hpos, if_neg hpos]

/-- C10: `convert_play` never mutates its input record: in the
state-threaded rendering the record that comes out is the one that went in,
whether the conversion succeeds or is skipped, and the computed result
agrees with the direct rendering. -/
theorem claim10_no_mutation :
    ∀ play : Dict, (convertPlaySt play).2 = play ∧
      (convertPlaySt play).1 = convert_play play := by
  intro play
  unfold convertPlaySt convert_play
  rw [convertPlayTrySt_spec]
  cases convertPlayTry play with
  | error u => exact ⟨rfl, rfl⟩
  | ok r => exact ⟨rfl, rfl⟩
